import Mathlib

/-
  Verification of the divination-engine astronomical and calendrical core.

  Shallow embedding of the JavaScript sources:
  - AstroCalc (Julian-day conversion, solar longitude, root finder)
  - SolarTermEngine (solar terms, sexagenary pillars, hidden stems)
  - DivinationModules.Kyusei (nine-star digit reduction)

  Real-number arithmetic of the source is modelled over the rationals;
  Math.floor is modelled by the floor of a rational number, and Math.sin
  values are supplied through an abstract function parameter wherever the
  source calls the sine, since every verified claim is independent of the
  concrete sine values.
-/

namespace DivinationEngine

/-- Model of Math.floor on rational values: floor toward negative infinity. -/
def jsFloor (q : ℚ) : ℤ := q.num / q.den

/-- A civil date and time with second precision, as read from a JS Date
via the getUTC accessors. -/
structure CivilDateTime where
  year : ℤ
  month : ℤ
  day : ℤ
  hour : ℤ
  minute : ℤ
  second : ℤ
deriving DecidableEq

/-- Gregorian leap-year test. -/
def isLeapYear (y : ℤ) : Bool :=
  (y % 4 == 0 && y % 100 != 0) || y % 400 == 0

/-- Number of days of a civil month. -/
def daysInMonth (y m : ℤ) : ℤ :=
  if m = 2 then (if isLeapYear y then 29 else 28)
  else if m = 4 ∨ m = 6 ∨ m = 9 ∨ m = 11 then 30 else 31

/-- A well-formed civil date and time with second precision. -/
def ValidCivil (x : CivilDateTime) : Prop :=
  1 ≤ x.month ∧ x.month ≤ 12 ∧ 1 ≤ x.day ∧ x.day ≤ daysInMonth x.year x.month ∧
  0 ≤ x.hour ∧ x.hour ≤ 23 ∧ 0 ≤ x.minute ∧ x.minute ≤ 59 ∧
  0 ≤ x.second ∧ x.second ≤ 59

instance ValidCivil.dec (x : CivilDateTime) : Decidable (ValidCivil x) := by
  unfold ValidCivil; exact inferInstance

namespace AstroCalc

/-- Year after the January and February shift of AstroCalc.dateToJD. -/
def shiftedYear (x : CivilDateTime) : ℤ := if x.month ≤ 2 then x.year - 1 else x.year

/-- Month after the January and February shift of AstroCalc.dateToJD. -/
def shiftedMonth (x : CivilDateTime) : ℤ := if x.month ≤ 2 then x.month + 12 else x.month

/-- The century term A of AstroCalc.dateToJD. -/
def gregA (x : CivilDateTime) : ℤ := jsFloor ((shiftedYear x : ℚ) / 100)

/-- The Gregorian correction B of AstroCalc.dateToJD. -/
def gregB (x : CivilDateTime) : ℤ := 2 - gregA x + jsFloor ((gregA x : ℚ) / 4)

/-- AstroCalc.dateToJD: civil date and time to Julian day (Meeus). The
source variable hour packs hour, minute and second into fractional hours. -/
def dateToJD (x : CivilDateTime) : ℚ :=
  (jsFloor ((365.25 : ℚ) * ((shiftedYear x : ℚ) + 4716)) : ℚ) +
  (jsFloor ((30.6001 : ℚ) * ((shiftedMonth x : ℚ) + 1)) : ℚ) +
  (x.day : ℚ) +
  ((x.hour : ℚ) + (x.minute : ℚ) / 60 + (x.second : ℚ) / 3600) / 24 +
  (gregB x : ℚ) - 1524.5

/-- The value Z of AstroCalc.jdToDate. -/
def jdZ (jd : ℚ) : ℤ := jsFloor (jd + 0.5)

/-- The fractional part F of AstroCalc.jdToDate. -/
def jdF (jd : ℚ) : ℚ := jd + 0.5 - (jdZ jd : ℚ)

/-- The value alpha of AstroCalc.jdToDate (Gregorian branch). -/
def jdAlpha (jd : ℚ) : ℤ := jsFloor (((jdZ jd : ℚ) - 1867216.25) / 36524.25)

/-- The value A of AstroCalc.jdToDate, with the Julian branch for Z below
2299161 and the Gregorian branch otherwise. -/
def jdA (jd : ℚ) : ℤ :=
  if jdZ jd < 2299161 then jdZ jd
  else jdZ jd + 1 + jdAlpha jd - jsFloor ((jdAlpha jd : ℚ) / 4)

/-- The value B of AstroCalc.jdToDate. -/
def jdB (jd : ℚ) : ℤ := jdA jd + 1524

/-- The value C of AstroCalc.jdToDate. -/
def jdC (jd : ℚ) : ℤ := jsFloor (((jdB jd : ℚ) - 122.1) / 365.25)

/-- The value D of AstroCalc.jdToDate. -/
def jdD (jd : ℚ) : ℤ := jsFloor ((365.25 : ℚ) * (jdC jd : ℚ))

/-- The value E of AstroCalc.jdToDate. -/
def jdE (jd : ℚ) : ℤ := jsFloor (((jdB jd : ℚ) - (jdD jd : ℚ)) / 30.6001)

/-- The fractional day of AstroCalc.jdToDate. -/
def jdDayQ (jd : ℚ) : ℚ :=
  (jdB jd : ℚ) - (jdD jd : ℚ) - (jsFloor ((30.6001 : ℚ) * (jdE jd : ℚ)) : ℚ) + jdF jd

/-- The civil month extracted by AstroCalc.jdToDate. -/
def jdMonth (jd : ℚ) : ℤ := if jdE jd < 14 then jdE jd - 1 else jdE jd - 13

/-- The civil year extracted by AstroCalc.jdToDate. -/
def jdYear (jd : ℚ) : ℤ := if 2 < jdMonth jd then jdC jd - 4716 else jdC jd - 4715

/-- The integral civil day extracted by AstroCalc.jdToDate. -/
def jdDayInt (jd : ℚ) : ℤ := jsFloor (jdDayQ jd)

/-- Fractional hours of AstroCalc.jdToDate. -/
def jdHours (jd : ℚ) : ℚ := (jdDayQ jd - (jdDayInt jd : ℚ)) * 24

/-- The hour extracted by AstroCalc.jdToDate. -/
def jdHour (jd : ℚ) : ℤ := jsFloor (jdHours jd)

/-- Fractional minutes of AstroCalc.jdToDate. -/
def jdMinutes (jd : ℚ) : ℚ := (jdHours jd - (jdHour jd : ℚ)) * 60

/-- The minute extracted by AstroCalc.jdToDate. -/
def jdMinute (jd : ℚ) : ℤ := jsFloor (jdMinutes jd)

/-- The second extracted by AstroCalc.jdToDate. -/
def jdSecond (jd : ℚ) : ℤ := jsFloor ((jdMinutes jd - (jdMinute jd : ℚ)) * 60)

/-- AstroCalc.jdToDate: Julian day back to a civil date and time. -/
def jdToDate (jd : ℚ) : CivilDateTime :=
  ⟨jdYear jd, jdMonth jd, jdDayInt jd, jdHour jd, jdMinute jd, jdSecond jd⟩

/-- Integer form of the whole-day part of dateToJD: the Z value that the
round trip through jdToDate decomposes. -/
def intW (x : CivilDateTime) : ℤ :=
  1461 * (shiftedYear x + 4716) / 4 + 306001 * (shiftedMonth x + 1) / 10000 + x.day +
  (2 - shiftedYear x / 100 + shiftedYear x / 100 / 4) - 1524

/-- The time of day of a civil value, in whole seconds. -/
def tSec (x : CivilDateTime) : ℤ := 3600 * x.hour + 60 * x.minute + x.second

/-- Integer version of jdA at a given Z value. -/
def zA (z : ℤ) : ℤ :=
  if z < 2299161 then z
  else z + 1 + (4 * z - 7468865) / 146097 - (4 * z - 7468865) / 146097 / 4

/-- Integer version of jdB at a given Z value. -/
def zB (z : ℤ) : ℤ := zA z + 1524

/-- Integer version of jdC at a given Z value. -/
def zC (z : ℤ) : ℤ := (20 * zB z - 2442) / 7305

/-- Integer version of jdD at a given Z value. -/
def zD (z : ℤ) : ℤ := 1461 * zC z / 4

/-- Integer version of jdE at a given Z value. -/
def zE (z : ℤ) : ℤ := 10000 * (zB z - zD z) / 306001

/-- Integer version of the whole-day part of jdDayQ at a given Z value. -/
def zDay (z : ℤ) : ℤ := zB z - zD z - 306001 * zE z / 10000

/-- Integer version of jdMonth at a given Z value. -/
def zMonth (z : ℤ) : ℤ := if zE z < 14 then zE z - 1 else zE z - 13

/-- Integer version of jdYear at a given Z value. -/
def zYear (z : ℤ) : ℤ := if 2 < zMonth z then zC z - 4716 else zC z - 4715

/-- JS remainder (sign follows the dividend), used by normalizeDegrees. -/
def jsRem (a b : ℚ) : ℚ :=
  if 0 ≤ a then a - b * (jsFloor (a / b) : ℚ)
  else -((-a) - b * (jsFloor ((-a) / b) : ℚ))

/-- AstroCalc.normalizeDegrees: reduce an angle into the range 0 to 360. -/
def normalizeDegrees (deg : ℚ) : ℚ :=
  if jsRem deg 360 < 0 then jsRem deg 360 + 360 else jsRem deg 360

/-- AstroCalc.julianCentury: Julian centuries since J2000.0. -/
def julianCentury (jd : ℚ) : ℚ := (jd - 2451545.0) / 36525.0

/-- Solar mean longitude L0 of AstroCalc.getSunLongitude. -/
def sunL0 (jd : ℚ) : ℚ :=
  normalizeDegrees (280.46646 + 36000.76983 * julianCentury jd +
    0.0003032 * julianCentury jd * julianCentury jd)

/-- Solar mean anomaly M of AstroCalc.getSunLongitude. -/
def sunM (jd : ℚ) : ℚ :=
  normalizeDegrees (357.52911 + 35999.05029 * julianCentury jd -
    0.0001537 * julianCentury jd * julianCentury jd)

/-- Equation of center C of AstroCalc.getSunLongitude. The sinDeg argument
models Math.sin composed with the degree-to-radian conversion. -/
def sunC (sinDeg : ℚ → ℚ) (jd : ℚ) : ℚ :=
  (1.914602 - 0.004817 * julianCentury jd - 0.000014 * julianCentury jd * julianCentury jd) *
    sinDeg (sunM jd) +
  (0.019993 - 0.000101 * julianCentury jd) * sinDeg (2 * sunM jd) +
  0.000289 * sinDeg (3 * sunM jd)

/-- AstroCalc.getSunLongitude: apparent solar ecliptic longitude,
normalized into the range 0 to 360. -/
def getSunLongitude (sinDeg : ℚ → ℚ) (jd : ℚ) : ℚ :=
  normalizeDegrees (sunL0 jd + sunC sinDeg jd)

/-- First correction of the signed-delta wrap of the root finders:
subtract 360 when the difference exceeds 180. -/
def wrapStep1 (d : ℚ) : ℚ := if 180 < d then d - 360 else d

/-- The signed-delta wrap of the root finders: after the first correction,
add 360 when the value is below minus 180. -/
def wrapDelta (d : ℚ) : ℚ :=
  if wrapStep1 d < -180 then wrapStep1 d + 360 else wrapStep1 d

/-- The correction loop shared by the two root finders: up to fuel steps,
stop when the wrapped difference is below tol, else advance time by the
wrapped difference (about one degree per day). -/
def newtonLoop (sunLon : ℚ → ℚ) (target tol : ℚ) : ℕ → ℚ → ℚ
  | 0, jd => jd
  | n + 1, jd =>
      if |wrapDelta (target - sunLon jd)| < tol then jd
      else newtonLoop sunLon target tol n (jd + wrapDelta (target - sunLon jd))

/-- The same iteration without the early-exit tolerance test; used to state
what the finder returns when the tolerance is never met. -/
def pureIter (sunLon : ℚ → ℚ) (target : ℚ) : ℕ → ℚ → ℚ
  | 0, jd => jd
  | n + 1, jd => pureIter sunLon target n (jd + wrapDelta (target - sunLon jd))

/-- AstroCalc.findSolarTermTime: initial one-degree-per-day jump followed
by at most 20 correction steps with tolerance 0.0001 degrees. The sunLon
argument models AstroCalc.getSunLongitude. -/
def findSolarTermTime (sunLon : ℚ → ℚ) (targetLongitude startJD : ℚ) : ℚ :=
  newtonLoop sunLon targetLongitude 0.0001 20
    (startJD + wrapDelta (targetLongitude - sunLon startJD))

end AstroCalc

namespace SolarTermEngine

open AstroCalc

/-- One record of the 24-term table SOLAR_TERMS_FULL. -/
structure SolarTerm where
  name : String
  longitude : ℚ
  monthNum : ℤ
  isJie : Bool
deriving DecidableEq

/-- One record of the 12-entry boundary-term table JIE_TERMS. -/
structure JieTerm where
  name : String
  longitude : ℚ
  monthNum : ℤ
  branchIndex : ℤ
deriving DecidableEq

/-- SolarTermEngine.SOLAR_TERMS_FULL: the 24 solar terms with target
longitude, nominal month number and the node flag. -/
def SOLAR_TERMS_FULL : List SolarTerm :=
  [⟨"小寒", 285, 12, true⟩, ⟨"大寒", 300, 12, false⟩,
   ⟨"立春", 315, 1, true⟩, ⟨"雨水", 330, 1, false⟩,
   ⟨"啓蟄", 345, 2, true⟩, ⟨"春分", 0, 2, false⟩,
   ⟨"清明", 15, 3, true⟩, ⟨"穀雨", 30, 3, false⟩,
   ⟨"立夏", 45, 4, true⟩, ⟨"小満", 60, 4, false⟩,
   ⟨"芒種", 75, 5, true⟩, ⟨"夏至", 90, 5, false⟩,
   ⟨"小暑", 105, 6, true⟩, ⟨"大暑", 120, 6, false⟩,
   ⟨"立秋", 135, 7, true⟩, ⟨"処暑", 150, 7, false⟩,
   ⟨"白露", 165, 8, true⟩, ⟨"秋分", 180, 8, false⟩,
   ⟨"寒露", 195, 9, true⟩, ⟨"霜降", 210, 9, false⟩,
   ⟨"立冬", 225, 10, true⟩, ⟨"小雪", 240, 10, false⟩,
   ⟨"大雪", 255, 11, true⟩, ⟨"冬至", 270, 11, false⟩]

/-- SolarTermEngine.JIE_TERMS: the 12 boundary terms with the branch index
of the month they open. -/
def JIE_TERMS : List JieTerm :=
  [⟨"立春", 315, 1, 2⟩, ⟨"啓蟄", 345, 2, 3⟩, ⟨"清明", 15, 3, 4⟩,
   ⟨"立夏", 45, 4, 5⟩, ⟨"芒種", 75, 5, 6⟩, ⟨"小暑", 105, 6, 7⟩,
   ⟨"立秋", 135, 7, 8⟩, ⟨"白露", 165, 8, 9⟩, ⟨"寒露", 195, 9, 10⟩,
   ⟨"立冬", 225, 10, 11⟩, ⟨"大雪", 255, 11, 0⟩, ⟨"小寒", 285, 12, 1⟩]

/-- SolarTermEngine.STEMS: the ten heavenly stems. -/
def STEMS : List String :=
  ["甲", "乙", "丙", "丁", "戊", "己", "庚", "辛", "壬", "癸"]

/-- SolarTermEngine.BRANCHES: the twelve earthly branches. -/
def BRANCHES : List String :=
  ["子", "丑", "寅", "卯", "辰", "巳", "午", "未", "申", "酉", "戌", "亥"]

/-- SolarTermEngine.findSolarTermJD: initial one-degree-per-day jump, then
at most 30 correction steps with tolerance 0.00001 degrees. The sunLon
argument models AstroCalc.getSunLongitude. -/
def findSolarTermJD (sunLon : ℚ → ℚ) (targetLongitude startJD : ℚ) : ℚ :=
  newtonLoop sunLon targetLongitude 0.00001 30
    (startJD + wrapDelta (targetLongitude - sunLon startJD))

/-- SolarTermEngine.getSolarTermJD: look the term up by name, start from a
coarse calendar estimate, and refine with findSolarTermJD; a name missing
from the table yields null, modelled as none. -/
def getSolarTermJD (sunLon : ℚ → ℚ) (year : ℤ) (termName : String) : Option ℚ :=
  match SOLAR_TERMS_FULL.find? (fun t => t.name == termName) with
  | none => none
  | some term =>
      let termIndex : ℕ := SOLAR_TERMS_FULL.findIdx (fun t => t.name == termName)
      let approxMonth : ℕ := if termIndex ≤ 1 then 0 else termIndex / 2
      let approxJD : ℚ :=
        dateToJD ⟨year, (approxMonth : ℤ) + 1, 1 + 15 * ((termIndex : ℤ) % 2), 0, 0, 0⟩
      some (findSolarTermJD sunLon term.longitude approxJD)

/-- SolarTermEngine.getLichunJD: the start-of-spring instant of a year. -/
def getLichunJD (sunLon : ℚ → ℚ) (year : ℤ) : Option ℚ :=
  getSolarTermJD sunLon year "立春"

/-- One step of the previous-node scan of getPreviousJie: keep the latest
node instant that is truthy, at or before jd and later than the best so
far. -/
def jieScanStep (sunLon : ℚ → ℚ) (jd : ℚ) (y : ℤ)
    (acc : Option (JieTerm × ℚ × ℤ) × ℚ) (jie : JieTerm) :
    Option (JieTerm × ℚ × ℤ) × ℚ :=
  match getSolarTermJD sunLon y jie.name with
  | none => acc
  | some jieJD =>
      if jieJD ≠ 0 ∧ jieJD ≤ jd ∧ acc.2 < jieJD then (some (jie, jieJD, y), jieJD) else acc

/-- The double loop of getPreviousJie over the three candidate years and
the twelve boundary terms, with the accumulator started at null and 0. -/
def jieScan (sunLon : ℚ → ℚ) (jd : ℚ) : Option (JieTerm × ℚ × ℤ) × ℚ :=
  [(jdToDate jd).year - 1, (jdToDate jd).year, (jdToDate jd).year + 1].foldl
    (fun acc y => JIE_TERMS.foldl (jieScanStep sunLon jd y) acc) (none, 0)

/-- The record returned by SolarTermEngine.getPreviousJie. The year field
is absent (none) in the fallback record of the source. -/
structure PrevJieResult where
  name : String
  jd : ℚ
  monthNum : ℤ
  branchIndex : ℤ
  daysFromJieqi : ℚ
  year : Option ℤ
deriving DecidableEq

/-- SolarTermEngine.getPreviousJie: the most recent boundary node at or
before jd from a three-year window; when the scan finds nothing it falls
back to a fixed default record naming the start of spring. -/
def getPreviousJie (sunLon : ℚ → ℚ) (jd : ℚ) : PrevJieResult :=
  match (jieScan sunLon jd).1 with
  | none => ⟨"立春", jd, 1, 2, 0, none⟩
  | some (jie, jieJD, y) => ⟨jie.name, jieJD, jie.monthNum, jie.branchIndex, jd - jieJD, some y⟩

end SolarTermEngine

/-- The day difference over civil dates: the whole-day index of local
midnight, so that differences model the local-midnight epoch subtraction
of calcDayPillar. -/
def dayNumber (y m d : ℤ) : ℤ := AstroCalc.intW ⟨y, m, d, 0, 0, 0⟩

/-- The calendar day after a civil value, keeping the time of day. -/
def nextDay (c : CivilDateTime) : CivilDateTime :=
  if c.day < daysInMonth c.year c.month then
    ⟨c.year, c.month, c.day + 1, c.hour, c.minute, c.second⟩
  else if c.month < 12 then ⟨c.year, c.month + 1, 1, c.hour, c.minute, c.second⟩
  else ⟨c.year + 1, 1, 1, c.hour, c.minute, c.second⟩

/-- The calendar day before a civil value, keeping the time of day. -/
def prevDay (c : CivilDateTime) : CivilDateTime :=
  if 1 < c.day then ⟨c.year, c.month, c.day - 1, c.hour, c.minute, c.second⟩
  else if 1 < c.month then
    ⟨c.year, c.month - 1, daysInMonth c.year (c.month - 1), c.hour, c.minute, c.second⟩
  else ⟨c.year - 1, 12, 31, c.hour, c.minute, c.second⟩

/-- Civil-field model of adding nine hours of epoch time to a JS Date, as
calcDayPillar does to move from UTC to JST. -/
def addNineHours (c : CivilDateTime) : CivilDateTime :=
  if c.hour + 9 ≤ 23 then ⟨c.year, c.month, c.day, c.hour + 9, c.minute, c.second⟩
  else ⟨(nextDay c).year, (nextDay c).month, (nextDay c).day, c.hour + 9 - 24, c.minute, c.second⟩

/-- Civil-field model of subtracting nine hours of epoch time from a JS
Date, as calcFourPillars does to move local JST input to UTC. -/
def subNineHours (c : CivilDateTime) : CivilDateTime :=
  if 0 ≤ c.hour - 9 then ⟨c.year, c.month, c.day, c.hour - 9, c.minute, c.second⟩
  else ⟨(prevDay c).year, (prevDay c).month, (prevDay c).day, c.hour - 9 + 24, c.minute, c.second⟩

/-- JS remainder on integers: truncated modulus, sign of the dividend. -/
def jsIntMod (a n : ℤ) : ℤ := Int.tmod a n

namespace SolarTermEngine

/-- Stem index of a sexagenary index, as computed in calcDayPillar. -/
def sexStemIndex (i : ℤ) : ℤ := i % 10

/-- Branch index of a sexagenary index, as computed in calcDayPillar. -/
def sexBranchIndex (i : ℤ) : ℤ := i % 12

/-- The record returned by SolarTermEngine.calcDayPillar. -/
structure DayPillar where
  stem : String
  branch : String
  stemIndex : ℤ
  branchIndex : ℤ
  sexagenaryIndex : ℤ
  full : String
deriving DecidableEq

/-- The JST civil value of a Julian day, as formed by calcDayPillar. -/
def jstDateOf (jd : ℚ) : CivilDateTime := addNineHours (AstroCalc.jdToDate jd)

/-- The local variable daysDiff of calcDayPillar: calendar days between
the JST date of jd and the JST reference date 1992-02-17. -/
def dayPillarDaysDiff (jd : ℚ) : ℤ :=
  dayNumber (jstDateOf jd).year (jstDateOf jd).month (jstDateOf jd).day - dayNumber 1992 2 17

/-- The local variable sexagenaryIndex of calcDayPillar: reference index
59 plus the day difference, reduced with the JS double-modulus pattern. -/
def dayPillarIndex (jd : ℚ) : ℤ := (jsIntMod (59 + dayPillarDaysDiff jd) 60 + 60) % 60

/-- SolarTermEngine.calcDayPillar: convert the Julian day to JST civil
date, count calendar days from the JST reference date 1992-02-17 of
sexagenary index 59, and split the sexagenary index into stem and branch
by the residues modulo 10 and 12. -/
def calcDayPillar (jd : ℚ) : DayPillar :=
  ⟨STEMS.getD (sexStemIndex (dayPillarIndex jd)).toNat "",
   BRANCHES.getD (sexBranchIndex (dayPillarIndex jd)).toNat "",
   sexStemIndex (dayPillarIndex jd),
   sexBranchIndex (dayPillarIndex jd),
   dayPillarIndex jd,
   STEMS.getD (sexStemIndex (dayPillarIndex jd)).toNat "" ++
     BRANCHES.getD (sexBranchIndex (dayPillarIndex jd)).toNat ""⟩

/-- The record returned by SolarTermEngine.calcYearPillar. -/
structure YearPillar where
  stem : String
  branch : String
  stemIndex : ℤ
  branchIndex : ℤ
  year : ℤ
  full : String
deriving DecidableEq

/-- The stem and branch assignment of calcYearPillar as a pure function of
the already-adjusted year, anchored at 1984 as the wood-rat year. -/
def yearPillarOfYear (y : ℤ) : YearPillar :=
  ⟨STEMS.getD ((jsIntMod (y - 1984) 60 + 60) % 60 % 10).toNat "",
   BRANCHES.getD ((jsIntMod (y - 1984) 60 + 60) % 60 % 12).toNat "",
   (jsIntMod (y - 1984) 60 + 60) % 60 % 10,
   (jsIntMod (y - 1984) 60 + 60) % 60 % 12,
   y,
   STEMS.getD ((jsIntMod (y - 1984) 60 + 60) % 60 % 10).toNat "" ++
     BRANCHES.getD ((jsIntMod (y - 1984) 60 + 60) % 60 % 12).toNat ""⟩

/-- The year adjustment of calcYearPillar: the civil year of the instant,
decremented when the instant precedes the start-of-spring node of that year.
A null node instant would coerce to 0 in the JS comparison, modelled by
Option.getD 0. -/
def yearPillarYear (sunLon : ℚ → ℚ) (jd : ℚ) : ℤ :=
  if jd < (getLichunJD sunLon (AstroCalc.jdToDate jd).year).getD 0 then
    (AstroCalc.jdToDate jd).year - 1
  else (AstroCalc.jdToDate jd).year

/-- SolarTermEngine.calcYearPillar: year pillar from the lichun-adjusted
year, mapped through the 1984-anchored sexagenary cycle. -/
def calcYearPillar (sunLon : ℚ → ℚ) (jd : ℚ) : YearPillar :=
  ⟨STEMS.getD ((jsIntMod (yearPillarYear sunLon jd - 1984) 60 + 60) % 60 % 10).toNat "",
   BRANCHES.getD ((jsIntMod (yearPillarYear sunLon jd - 1984) 60 + 60) % 60 % 12).toNat "",
   (jsIntMod (yearPillarYear sunLon jd - 1984) 60 + 60) % 60 % 10,
   (jsIntMod (yearPillarYear sunLon jd - 1984) 60 + 60) % 60 % 12,
   yearPillarYear sunLon jd,
   STEMS.getD ((jsIntMod (yearPillarYear sunLon jd - 1984) 60 + 60) % 60 % 10).toNat "" ++
     BRANCHES.getD ((jsIntMod (yearPillarYear sunLon jd - 1984) 60 + 60) % 60 % 12).toNat ""⟩

/-- SolarTermEngine.HOUR_STEM_START: stem index of the rat hour for each
day stem index 0 to 9 (keys outside that range are absent in the JS
object; the model returns 0 there and every theorem restricts the range). -/
def HOUR_STEM_START (dayStemIndex : ℤ) : ℤ :=
  [0, 2, 4, 6, 8, 0, 2, 4, 6, 8].getD dayStemIndex.toNat 0

/-- The record returned by SolarTermEngine.calcHourPillar. -/
structure HourPillar where
  stem : String
  branch : String
  stemIndex : ℤ
  branchIndex : ℤ
  hour : ℤ
  minute : ℤ
  use23Switch : Bool
  dayAdjusted : Bool
  full : String
deriving DecidableEq

/-- The branch index chosen by calcHourPillar. -/
def hourBranchIndex (hour : ℤ) (use23Switch : Bool) : ℤ :=
  if use23Switch then
    (if 23 ≤ hour then 0 else if hour < 1 then 0 else (hour + 1) / 2)
  else (hour + 1) / 2 % 12

/-- The next-day borrow flag of calcHourPillar: only hours from 23 on
under the 23:00 rollover convention borrow the stem of the next day. -/
def hourDayAdjusted (hour : ℤ) (use23Switch : Bool) : Bool :=
  use23Switch && 23 ≤ hour

/-- The effective day stem index of calcHourPillar: advanced by one modulo
ten when the borrow flag is set. -/
def effectiveDayStemIndex (hour dayStemIndex : ℤ) (use23Switch : Bool) : ℤ :=
  if hourDayAdjusted hour use23Switch then (dayStemIndex + 1) % 10 else dayStemIndex

/-- The hour stem index of calcHourPillar: base-table stem of the
effective day stem, advanced by the branch index, modulo ten. -/
def hourStemIndex (hour dayStemIndex : ℤ) (use23Switch : Bool) : ℤ :=
  (HOUR_STEM_START (effectiveDayStemIndex hour dayStemIndex use23Switch) +
    hourBranchIndex hour use23Switch) % 10

/-- SolarTermEngine.calcHourPillar under both day-boundary conventions. -/
def calcHourPillar (hour minute dayStemIndex : ℤ) (use23Switch : Bool) : HourPillar :=
  ⟨STEMS.getD (hourStemIndex hour dayStemIndex use23Switch).toNat "",
   BRANCHES.getD (hourBranchIndex hour use23Switch).toNat "",
   hourStemIndex hour dayStemIndex use23Switch,
   hourBranchIndex hour use23Switch,
   hour, minute, use23Switch,
   hourDayAdjusted hour use23Switch,
   STEMS.getD (hourStemIndex hour dayStemIndex use23Switch).toNat "" ++
     BRANCHES.getD (hourBranchIndex hour use23Switch).toNat ""⟩

/-- SolarTermEngine.HIDDEN_STEMS_DETAIL: hidden stems and day spans per
branch. -/
def HIDDEN_STEMS_DETAIL (branch : String) : Option (List String × List ℚ) :=
  if branch = "子" then some (["壬", "癸"], [10, 20])
  else if branch = "丑" then some (["癸", "辛", "己"], [9, 3, 18])
  else if branch = "寅" then some (["戊", "丙", "甲"], [7, 7, 16])
  else if branch = "卯" then some (["甲", "乙"], [10, 20])
  else if branch = "辰" then some (["乙", "癸", "戊"], [9, 3, 18])
  else if branch = "巳" then some (["戊", "庚", "丙"], [7, 7, 16])
  else if branch = "午" then some (["丙", "己", "丁"], [10, 9, 11])
  else if branch = "未" then some (["丁", "乙", "己"], [9, 3, 18])
  else if branch = "申" then some (["己", "壬", "庚"], [7, 7, 16])
  else if branch = "酉" then some (["庚", "辛"], [10, 20])
  else if branch = "戌" then some (["辛", "丁", "戊"], [9, 3, 18])
  else if branch = "亥" then some (["戊", "甲", "壬"], [7, 7, 16])
  else none

/-- The cumulative-span walk of getHiddenStems: index of the first span
whose cumulative upper bound strictly exceeds the elapsed days, if any. -/
def hiddenStemPick (daysFromJieqi : ℚ) : List ℚ → ℚ → ℕ → Option ℕ
  | [], _, _ => none
  | d :: rest, cumulative, i =>
      if daysFromJieqi < cumulative + d then some i
      else hiddenStemPick daysFromJieqi rest (cumulative + d) (i + 1)

/-- The record returned by SolarTermEngine.getHiddenStems. -/
structure HiddenStemsResult where
  mainStem : Option String
  allStems : List String
  days : List ℚ
  phase : Option String
  daysFromJieqi : Option ℚ
deriving DecidableEq

/-- SolarTermEngine.getHiddenStems: pick the active hidden stem of a
branch from the elapsed days since node entry, defaulting to the final
(proper) stem, with the phase label of the chosen span. -/
def getHiddenStems (branch : String) (daysFromJieqi : ℚ) : HiddenStemsResult :=
  match HIDDEN_STEMS_DETAIL branch with
  | none => ⟨none, [], [], none, none⟩
  | some (stems, days) =>
      match hiddenStemPick daysFromJieqi days 0 0 with
      | none => ⟨some (stems.getLastD ""), stems, days, some "正気", some daysFromJieqi⟩
      | some i =>
          ⟨some (stems.getD i ""), stems, days,
           some (if i = 0 then "余気"
             else if i = stems.length - 1 then "正気" else "中気"),
           some daysFromJieqi⟩

/-- The slice of a four-pillars value read by getAllHiddenStems: one
branch per pillar. -/
structure PillarRef where
  branch : String
deriving DecidableEq

/-- The slice of the month pillar read by getAllHiddenStems: its branch
and the elapsed days since node entry. -/
structure MonthPillarRef where
  branch : String
  daysFromJieqi : ℚ
deriving DecidableEq

/-- The four-pillars fields consumed by getAllHiddenStems. -/
structure FourPillars where
  year : PillarRef
  month : MonthPillarRef
  day : PillarRef
  hour : PillarRef
deriving DecidableEq

/-- The four per-pillar results of getAllHiddenStems. -/
structure AllHiddenStems where
  year : HiddenStemsResult
  month : HiddenStemsResult
  day : HiddenStemsResult
  hour : HiddenStemsResult
deriving DecidableEq

/-- SolarTermEngine.getAllHiddenStems: the month pillar uses its elapsed
days (with the JS falsy-zero fallback to 15), while year, day and hour are
evaluated at the fixed value 15. -/
def getAllHiddenStems (fp : FourPillars) : AllHiddenStems :=
  ⟨getHiddenStems fp.year.branch 15,
   getHiddenStems fp.month.branch
     (if fp.month.daysFromJieqi = 0 then 15 else fp.month.daysFromJieqi),
   getHiddenStems fp.day.branch 15,
   getHiddenStems fp.hour.branch 15⟩

end SolarTermEngine

namespace Kyusei

/-- Decimal digit sum with explicit fuel, modelling the string-split digit
sum of DivinationModules.Kyusei.calcYearStar. -/
def digitSumAux : ℕ → ℕ → ℕ
  | 0, _ => 0
  | fuel + 1, m => if m = 0 then 0 else m % 10 + digitSumAux fuel (m / 10)

/-- Sum of the decimal digits of a natural number. -/
def digitSum (n : ℕ) : ℕ := digitSumAux n n

/-- The while loop of calcYearStar: repeat the digit sum while the value
exceeds 9. The fuel bound of the model is the starting value itself. -/
def reduceIter : ℕ → ℕ → ℕ
  | 0, m => m
  | fuel + 1, m => if 9 < m then reduceIter fuel (digitSum m) else m

/-- Digit-sum reduction of a year as performed by calcYearStar: one digit
sum, then repeat while above 9. -/
def digitSumReduce (n : ℕ) : ℕ := reduceIter n (digitSum n)

/-- DivinationModules.Kyusei.calcYearStar: 11 minus the reduced digit sum,
wrapped back below 10. -/
def calcYearStar (year : ℕ) : ℕ :=
  if 9 < 11 - digitSumReduce year then 11 - digitSumReduce year - 9
  else 11 - digitSumReduce year

end Kyusei

theorem jsFloor_eq_floor (q : ℚ) : jsFloor q = ⌊q⌋ := Rat.floor_def.symm

/-- jsFloor of an integer quotient is Euclidean division. -/
theorem jsFloor_intCast_div (p q : ℤ) (hq : 0 < q) :
    jsFloor ((p : ℚ) / (q : ℚ)) = p / q := by
  rw [jsFloor_eq_floor]
  obtain ⟨n, rfl⟩ := Int.eq_ofNat_of_zero_le hq.le
  exact_mod_cast Rat.floor_intCast_div_natCast p n

theorem jsFloor_intCast (p : ℤ) : jsFloor ((p : ℚ)) = p := by
  rw [jsFloor_eq_floor]; exact Int.floor_intCast p

namespace AstroCalc

theorem fl365 (n : ℤ) : jsFloor ((365.25 : ℚ) * ((n : ℚ) + 4716)) = 1461 * (n + 4716) / 4 := by
  rw [show (365.25 : ℚ) * ((n : ℚ) + 4716)
      = ((1461 * (n + 4716) : ℤ) : ℚ) / ((4 : ℤ) : ℚ) by push_cast; ring]
  exact jsFloor_intCast_div _ _ (by norm_num)

theorem fl306 (n : ℤ) : jsFloor ((30.6001 : ℚ) * ((n : ℚ) + 1)) = 306001 * (n + 1) / 10000 := by
  rw [show (30.6001 : ℚ) * ((n : ℚ) + 1)
      = ((306001 * (n + 1) : ℤ) : ℚ) / ((10000 : ℤ) : ℚ) by push_cast; ring]
  exact jsFloor_intCast_div _ _ (by norm_num)

theorem fl306mul (n : ℤ) : jsFloor ((30.6001 : ℚ) * (n : ℚ)) = 306001 * n / 10000 := by
  rw [show (30.6001 : ℚ) * (n : ℚ)
      = ((306001 * n : ℤ) : ℚ) / ((10000 : ℤ) : ℚ) by push_cast; ring]
  exact jsFloor_intCast_div _ _ (by norm_num)

theorem fl365mul (n : ℤ) : jsFloor ((365.25 : ℚ) * (n : ℚ)) = 1461 * n / 4 := by
  rw [show (365.25 : ℚ) * (n : ℚ)
      = ((1461 * n : ℤ) : ℚ) / ((4 : ℤ) : ℚ) by push_cast; ring]
  exact jsFloor_intCast_div _ _ (by norm_num)

theorem flDiv100 (n : ℤ) : jsFloor ((n : ℚ) / 100) = n / 100 := by
  rw [show ((n : ℚ) / 100) = ((n : ℤ) : ℚ) / ((100 : ℤ) : ℚ) by push_cast; ring]
  exact jsFloor_intCast_div _ _ (by norm_num)

theorem flDiv4 (n : ℤ) : jsFloor ((n : ℚ) / 4) = n / 4 := by
  rw [show ((n : ℚ) / 4) = ((n : ℤ) : ℚ) / ((4 : ℤ) : ℚ) by push_cast; ring]
  exact jsFloor_intCast_div _ _ (by norm_num)

theorem flAlpha (z : ℤ) : jsFloor (((z : ℚ) - 1867216.25) / 36524.25) = (4 * z - 7468865) / 146097 := by
  rw [show ((z : ℚ) - 1867216.25) / 36524.25
      = ((4 * z - 7468865 : ℤ) : ℚ) / ((146097 : ℤ) : ℚ) by push_cast; ring]
  exact jsFloor_intCast_div _ _ (by norm_num)

theorem flC (b : ℤ) : jsFloor (((b : ℚ) - 122.1) / 365.25) = (20 * b - 2442) / 7305 := by
  rw [show ((b : ℚ) - 122.1) / 365.25
      = ((20 * b - 2442 : ℤ) : ℚ) / ((7305 : ℤ) : ℚ) by push_cast; ring]
  exact jsFloor_intCast_div _ _ (by norm_num)

theorem flE (b d : ℤ) : jsFloor (((b : ℚ) - (d : ℚ)) / 30.6001) = 10000 * (b - d) / 306001 := by
  rw [show ((b : ℚ) - (d : ℚ)) / 30.6001
      = ((10000 * (b - d) : ℤ) : ℚ) / ((306001 : ℤ) : ℚ) by push_cast; ring]
  exact jsFloor_intCast_div _ _ (by norm_num)

theorem gregA_eq (x : CivilDateTime) : gregA x = shiftedYear x / 100 := flDiv100 _

theorem gregB_eq (x : CivilDateTime) :
    gregB x = 2 - shiftedYear x / 100 + shiftedYear x / 100 / 4 := by
  rw [gregB, gregA_eq, flDiv4]

/-- dateToJD splits into its integer whole-day part and the exact
time-of-day fraction. -/
theorem dateToJD_decomp (x : CivilDateTime) :
    dateToJD x = (intW x : ℚ) + (tSec x : ℚ) / 86400 - 1 / 2 := by
  rw [dateToJD, intW, tSec, fl365, fl306, ← gregB_eq]
  push_cast
  ring

theorem jdAlpha_eq (jd : ℚ) : jdAlpha jd = (4 * jdZ jd - 7468865) / 146097 := flAlpha _

theorem jdA_eq (jd : ℚ) : jdA jd = zA (jdZ jd) := by
  rw [jdA, zA, jdAlpha_eq, flDiv4]

theorem jdB_eq (jd : ℚ) : jdB jd = zB (jdZ jd) := by rw [jdB, zB, jdA_eq]

theorem jdC_eq (jd : ℚ) : jdC jd = zC (jdZ jd) := by rw [jdC, zC, jdB_eq, flC]

theorem jdD_eq (jd : ℚ) : jdD jd = zD (jdZ jd) := by rw [jdD, zD, jdC_eq, fl365mul]

theorem jdE_eq (jd : ℚ) : jdE jd = zE (jdZ jd) := by
  rw [jdE, zE, jdB_eq, jdD_eq, flE]

theorem jdDayQ_eq (jd : ℚ) : jdDayQ jd = (zDay (jdZ jd) : ℚ) + jdF jd := by
  rw [jdDayQ, zDay, jdB_eq, jdD_eq, jdE_eq, fl306mul]
  push_cast
  ring

theorem jdMonth_eq (jd : ℚ) : jdMonth jd = zMonth (jdZ jd) := by
  rw [jdMonth, zMonth, jdE_eq]

theorem jdYear_eq (jd : ℚ) : jdYear jd = zYear (jdZ jd) := by
  rw [jdYear, zYear, jdMonth_eq, jdC_eq]

/-- Recovery of the century term: applied to the Z value of a valid
post-1582 date, the alpha computation of jdToDate returns the forward
century term minus 4. The mtd argument stands for the month-table entry
plus the day of month. -/
theorem alphaRecovery (y1 mtd : ℤ) (hy : 1582 ≤ y1) (h1 : 123 ≤ mtd)
    (h2 : mtd ≤ 487 ∨ (mtd ≤ 488 ∧
      (((y1 + 1) % 4 = 0 ∧ (y1 + 1) % 100 ≠ 0) ∨ (y1 + 1) % 400 = 0))) :
    (4 * (1461 * (y1 + 4716) / 4 + mtd + (2 - y1 / 100 + y1 / 100 / 4) - 1524) - 7468865) / 146097
      = y1 / 100 - 4 := by
  obtain ⟨B, t, s, hdec, ht1, ht2, hs1, hs2⟩ :
      ∃ B t s, y1 = 400 * B + 100 * t + s ∧ 0 ≤ t ∧ t < 4 ∧ 0 ≤ s ∧ s < 100 := by
    refine ⟨y1 / 400, y1 / 100 % 4, y1 % 100, ?_, by omega, by omega, by omega, by omega⟩
    have e4 : y1 % 400 = 100 * (y1 / 100 % 4) + y1 % 100 := by omega
    omega
  subst hdec
  have g1 : (400 * B + 100 * t + s + 1) % 4 = (s + 1) % 4 := by omega
  have g2 : (400 * B + 100 * t + s + 1) % 100 = (s + 1) % 100 := by omega
  have g3 : (400 * B + 100 * t + s + 1) % 400 = (100 * t + s + 1) % 400 := by omega
  rw [g1, g2, g3] at h2
  have f1 : (400 * B + 100 * t + s) / 100 = 4 * B + t := by omega
  have f3 : 1461 * (400 * B + 100 * t + s + 4716) / 4
      = 365 * (400 * B + 100 * t + s + 4716) + 100 * B + 25 * t + 1179 + s / 4 := by omega
  rw [f1, f3]
  have f2 : (4 * B + t) / 4 = B := by omega
  rw [f2]
  clear g1 g2 g3 f1 f2 f3
  have key : 0 ≤ 1461 * s - s % 4 - t + 4 * mtd - 489 ∧
      1461 * s - s % 4 - t + 4 * mtd - 489 < 146097 := by omega
  omega

/-- Recovery of the year count: the C step of jdToDate inverts the
365.25-day scaling of the forward conversion. -/
theorem cRecovery (n mtd : ℤ) (h123 : 123 ≤ mtd)
    (h2 : mtd ≤ 487 ∨ (mtd ≤ 488 ∧ n % 4 = 3)) :
    (20 * (365 * n + n / 4 + mtd) - 2442) / 7305 = n := by omega

/-- The integer decomposition of jdToDate recovers year count, shifted
month and day of month from the Z value produced by dateToJD, for every
valid post-1582 civil date. -/
theorem zPack (y1 m1 d W : ℤ)
    (hy : 1582 ≤ y1) (hm1 : 3 ≤ m1) (hm2 : m1 ≤ 14)
    (hd1 : 1 ≤ d) (hd2 : d ≤ 31)
    (hd30 : m1 = 4 ∨ m1 = 6 ∨ m1 = 9 ∨ m1 = 11 → d ≤ 30)
    (hfeb : m1 = 14 → d ≤ 28 ∨ (d = 29 ∧
      (((y1 + 1) % 4 = 0 ∧ (y1 + 1) % 100 ≠ 0) ∨ (y1 + 1) % 400 = 0)))
    (hlow : 1583 ≤ y1 ∨ 13 ≤ m1)
    (hW : W = 1461 * (y1 + 4716) / 4 + 306001 * (m1 + 1) / 10000 + d +
      (2 - y1 / 100 + y1 / 100 / 4) - 1524) :
    2299161 ≤ W ∧ zC W = y1 + 4716 ∧ zE W = m1 + 1 ∧ zDay W = d := by
  have hmtb : 122 ≤ 306001 * (m1 + 1) / 10000 ∧ 306001 * (m1 + 1) / 10000 ≤ 459 ∧
      (m1 ≤ 13 → 306001 * (m1 + 1) / 10000 ≤ 428) := by omega
  have hnum : 4 * (1461 * (y1 + 4716) / 4 + (306001 * (m1 + 1) / 10000 + d) +
      (2 - y1 / 100 + y1 / 100 / 4) - 1524) - 7468865 = 4 * W - 7468865 := by omega
  have halpha : (4 * W - 7468865) / 146097 = y1 / 100 - 4 := by
    rw [← hnum]
    exact alphaRecovery y1 (306001 * (m1 + 1) / 10000 + d) hy (by omega) (by omega)
  have e1 : 1461 * (y1 + 4716) / 4 = 365 * (y1 + 4716) + (y1 + 4716) / 4 := by omega
  have hWlow : 2299161 ≤ W := by omega
  have hzA : zA W = W + 1 + (4 * W - 7468865) / 146097 - (4 * W - 7468865) / 146097 / 4 := by
    rw [zA, if_neg (by omega)]
  have hzBe : zB W = 365 * (y1 + 4716) + (y1 + 4716) / 4 + (306001 * (m1 + 1) / 10000 + d) := by
    rw [zB, hzA]
    omega
  have hnum2 : 20 * zB W - 2442
      = 20 * (365 * (y1 + 4716) + (y1 + 4716) / 4 + (306001 * (m1 + 1) / 10000 + d)) - 2442 := by
    omega
  have hzCe : zC W = y1 + 4716 := by
    rw [zC, hnum2]
    exact cRecovery (y1 + 4716) (306001 * (m1 + 1) / 10000 + d) (by omega) (by omega)
  have hzDe : zD W = 1461 * (y1 + 4716) / 4 := by rw [zD, hzCe]
  have hBD : zB W - zD W = 306001 * (m1 + 1) / 10000 + d := by omega
  have hnum3 : 10000 * (zB W - zD W) = 10000 * (306001 * (m1 + 1) / 10000 + d) := by omega
  have hzEe : zE W = m1 + 1 := by
    rw [zE, hnum3]
    interval_cases m1 <;> omega
  have hday : zDay W = d := by
    rw [zDay, hzEe]
    omega
  exact ⟨hWlow, hzCe, hzEe, hday⟩

/-- The Z step of jdToDate extracts the integer part of a Julian day plus
one half, when the fractional part comes from a time of day. -/
theorem jdZ_decomp (W t : ℤ) (h0 : 0 ≤ t) (h1 : t < 86400) :
    jdZ ((W : ℚ) + (t : ℚ) / 86400 - 1 / 2) = W := by
  rw [jdZ, show ((W : ℚ) + (t : ℚ) / 86400 - 1 / 2) + 0.5
      = (W : ℚ) + ((t : ℤ) : ℚ) / ((86400 : ℤ) : ℚ) by push_cast; ring_nf,
    jsFloor_eq_floor, Int.floor_int_add, ← jsFloor_eq_floor,
    jsFloor_intCast_div _ _ (by norm_num)]
  omega

/-- The fractional part F of jdToDate is exactly the forward time-of-day
fraction. -/
theorem jdF_decomp (W t : ℤ) (hZ : jdZ ((W : ℚ) + (t : ℚ) / 86400 - 1 / 2) = W) :
    jdF ((W : ℚ) + (t : ℚ) / 86400 - 1 / 2) = (t : ℚ) / 86400 := by
  rw [jdF, hZ]
  ring_nf

/-- Hour, minute and second extraction of jdToDate recovers the time of
day encoded in whole seconds. -/
theorem timeRecovery (jd : ℚ) (dI t : ℤ) (h0 : 0 ≤ t) (h1 : t < 86400)
    (hq : jdDayQ jd = (dI : ℚ) + (t : ℚ) / 86400) :
    jdDayInt jd = dI ∧ jdHour jd = t / 3600 ∧
    jdMinute jd = t % 3600 / 60 ∧ jdSecond jd = t % 60 := by
  have hDayInt : jdDayInt jd = dI := by
    rw [jdDayInt, hq, show (dI : ℚ) + (t : ℚ) / 86400
        = (dI : ℚ) + ((t : ℤ) : ℚ) / ((86400 : ℤ) : ℚ) by push_cast; ring,
      jsFloor_eq_floor, Int.floor_int_add, ← jsFloor_eq_floor,
      jsFloor_intCast_div _ _ (by norm_num)]
    omega
  have hHours : jdHours jd = ((t : ℤ) : ℚ) / ((3600 : ℤ) : ℚ) := by
    rw [jdHours, hq, hDayInt]
    push_cast
    ring
  have hHour : jdHour jd = t / 3600 := by
    rw [jdHour, hHours, jsFloor_intCast_div _ _ (by norm_num)]
  have hMinutes : jdMinutes jd = ((t % 3600 : ℤ) : ℚ) / ((60 : ℤ) : ℚ) := by
    have hm36 : (t % 3600 : ℤ) = t - 3600 * (t / 3600) := by omega
    rw [jdMinutes, hHours, hHour, hm36]
    push_cast
    ring
  have hMinute : jdMinute jd = t % 3600 / 60 := by
    rw [jdMinute, hMinutes, jsFloor_intCast_div _ _ (by norm_num)]
  have hSecond : jdSecond jd = t % 60 := by
    have hm60 : (t % 60 : ℤ) = t % 3600 - 60 * (t % 3600 / 60) := by omega
    rw [jdSecond, hMinutes, hMinute, show (((t % 3600 : ℤ) : ℚ) / ((60 : ℤ) : ℚ)
        - ((t % 3600 / 60 : ℤ) : ℚ)) * 60
        = ((t % 3600 - 60 * (t % 3600 / 60) : ℤ) : ℚ) by push_cast; ring,
      ← hm60, jsFloor_intCast]
  exact ⟨hDayInt, hHour, hMinute, hSecond⟩

end AstroCalc

/-- Bounds on the day of month implied by daysInMonth, split by month kind
and with the Gregorian leap conditions exposed as arithmetic. -/
theorem valid_day_bounds (y m d : ℤ) (h : d ≤ daysInMonth y m) :
    d ≤ 31 ∧ (m = 4 ∨ m = 6 ∨ m = 9 ∨ m = 11 → d ≤ 30) ∧
    (m = 2 → d ≤ 28 ∨ (d ≤ 29 ∧ ((y % 4 = 0 ∧ y % 100 ≠ 0) ∨ y % 400 = 0))) := by
  unfold daysInMonth at h
  split_ifs at h with hc1 hc2 hc3
  · simp only [isLeapYear, Bool.or_eq_true, Bool.and_eq_true, beq_iff_eq, bne_iff_ne] at hc2
    omega
  · simp only [isLeapYear, Bool.or_eq_true, Bool.and_eq_true, beq_iff_eq, bne_iff_ne] at hc2
    omega
  · omega
  · omega

open AstroCalc in
/-- C1: for every civil date and time with second precision from 1583 on,
converting to a Julian day with dateToJD and back with jdToDate reproduces
the civil value exactly, in particular to within one second. -/
theorem C1_dateToJD_jdToDate_roundtrip (x : CivilDateTime)
    (hv : ValidCivil x) (hy : 1583 ≤ x.year) :
    AstroCalc.jdToDate (AstroCalc.dateToJD x) = x := by
  obtain ⟨h1, h2, h3, h4, h5, h6, h7, h8, h9, h10⟩ := hv
  have hbounds := valid_day_bounds x.year x.month x.day h4
  have ht0 : 0 ≤ tSec x := by unfold tSec; omega
  have ht1 : tSec x < 86400 := by unfold tSec; omega
  have hdec := dateToJD_decomp x
  have hZ : jdZ (dateToJD x) = intW x := by
    rw [hdec]; exact jdZ_decomp (intW x) (tSec x) ht0 ht1
  have hF : jdF (dateToJD x) = (tSec x : ℚ) / 86400 := by
    rw [hdec]
    exact jdF_decomp (intW x) (tSec x) (by rw [← hdec, hdec]; exact jdZ_decomp _ _ ht0 ht1)
  have hzp := zPack (shiftedYear x) (shiftedMonth x) x.day (intW x)
    (by unfold shiftedYear; split <;> omega)
    (by unfold shiftedMonth; split <;> omega)
    (by unfold shiftedMonth; split <;> omega)
    h3
    (by omega)
    (by unfold shiftedMonth; split <;> omega)
    (by unfold shiftedMonth shiftedYear; split <;> intro hfeb <;> omega)
    (by unfold shiftedYear shiftedMonth; split <;> omega)
    rfl
  obtain ⟨hWl, hC, hE, hD⟩ := hzp
  have hMonthC : jdMonth (dateToJD x) = x.month := by
    rw [jdMonth_eq, hZ]
    simp only [zMonth]
    rw [hE]
    unfold shiftedMonth
    split_ifs <;> omega
  have hYearC : jdYear (dateToJD x) = x.year := by
    rw [jdYear_eq, hZ]
    simp only [zYear, zMonth]
    simp only [hE, hC]
    unfold shiftedMonth shiftedYear
    split_ifs <;> omega
  have hDayQ : jdDayQ (dateToJD x) = (x.day : ℚ) + (tSec x : ℚ) / 86400 := by
    rw [jdDayQ_eq, hZ, hD, hF]
  obtain ⟨hdi, hhr, hmin, hsec⟩ :=
    timeRecovery (dateToJD x) x.day (tSec x) ht0 ht1 hDayQ
  have hhr2 : jdHour (dateToJD x) = x.hour := by rw [hhr]; unfold tSec; omega
  have hmin2 : jdMinute (dateToJD x) = x.minute := by rw [hmin]; unfold tSec; omega
  have hsec2 : jdSecond (dateToJD x) = x.second := by rw [hsec]; unfold tSec; omega
  obtain ⟨xy, xm, xd, xh, xmi, xs⟩ := x
  simp only [jdToDate, CivilDateTime.mk.injEq]
  exact ⟨hYearC, hMonthC, hdi, hhr2, hmin2, hsec2⟩

/-- Witness for C1 at the leap day 2000-02-29 23:59:59. -/
theorem C1_witness :
    ValidCivil ⟨2000, 2, 29, 23, 59, 59⟩ ∧ 1583 ≤ (2000 : ℤ) ∧
    AstroCalc.jdToDate (AstroCalc.dateToJD ⟨2000, 2, 29, 23, 59, 59⟩)
      = ⟨2000, 2, 29, 23, 59, 59⟩ :=
  ⟨by decide, by norm_num,
    C1_dateToJD_jdToDate_roundtrip ⟨2000, 2, 29, 23, 59, 59⟩ (by decide) (by norm_num)⟩

/-- C2: the sexagenary decomposition of calcDayPillar sends every index
in the range 0 to 59 to its residues modulo 10 (stem) and 12 (branch),
and this is a bijection onto the parity-matched stem and branch pairs:
every such pair comes from exactly one index in the range. -/
theorem C2_sexagenary_bijection :
    (∀ i : ℤ, 0 ≤ i → i < 60 →
      SolarTermEngine.sexStemIndex i = i % 10 ∧ SolarTermEngine.sexBranchIndex i = i % 12) ∧
    (∀ s b : ℤ, 0 ≤ s → s < 10 → 0 ≤ b → b < 12 → s % 2 = b % 2 →
      ∃! i : ℤ, 0 ≤ i ∧ i < 60 ∧
        SolarTermEngine.sexStemIndex i = s ∧ SolarTermEngine.sexBranchIndex i = b) := by
  constructor
  · intro i h1 h2
    exact ⟨rfl, rfl⟩
  · intro s b hs0 hs1 hb0 hb1 hpar
    refine ⟨(6 * s - 5 * b) % 60, ⟨by omega, by omega, ?_, ?_⟩, ?_⟩
    · show (6 * s - 5 * b) % 60 % 10 = s
      omega
    · show (6 * s - 5 * b) % 60 % 12 = b
      omega
    · intro j hj
      obtain ⟨hj0, hj1, hjs, hjb⟩ := hj
      have hjs2 : j % 10 = s := hjs
      have hjb2 : j % 12 = b := hjb
      omega

/-- Witness for C2 at index 59 and at the pair of stem 9 and branch 11. -/
theorem C2_witness :
    (SolarTermEngine.sexStemIndex 59 = 59 % 10 ∧
     SolarTermEngine.sexBranchIndex 59 = 59 % 12) ∧
    (∃! i : ℤ, 0 ≤ i ∧ i < 60 ∧
      SolarTermEngine.sexStemIndex i = 9 ∧ SolarTermEngine.sexBranchIndex i = 11) :=
  ⟨C2_sexagenary_bijection.1 59 (by norm_num) (by norm_num),
   C2_sexagenary_bijection.2 9 11 (by norm_num) (by norm_num) (by norm_num) (by norm_num)
     (by norm_num)⟩

theorem jsRem_nonneg_bounds (a b : ℚ) (hb : 0 < b) (ha : 0 ≤ a) :
    0 ≤ AstroCalc.jsRem a b ∧ AstroCalc.jsRem a b < b := by
  unfold AstroCalc.jsRem
  rw [if_pos ha, jsFloor_eq_floor]
  have h1 : ((⌊a / b⌋ : ℤ) : ℚ) ≤ a / b := Int.floor_le (a / b)
  have h2 : a / b < (⌊a / b⌋ : ℚ) + 1 := Int.lt_floor_add_one (a / b)
  have e : b * (a / b) = a := by field_simp
  constructor
  · nlinarith
  · nlinarith

theorem jsRem_neg_bounds (a b : ℚ) (hb : 0 < b) (ha : ¬ 0 ≤ a) :
    -b < AstroCalc.jsRem a b ∧ AstroCalc.jsRem a b ≤ 0 := by
  have h := jsRem_nonneg_bounds (-a) b hb (by linarith [not_le.mp ha])
  unfold AstroCalc.jsRem at h ⊢
  rw [if_neg ha]
  rw [if_pos (by linarith [not_le.mp ha] : (0 : ℚ) ≤ -a)] at h
  constructor <;> linarith [h.1, h.2]

theorem normalizeDegrees_range (d : ℚ) :
    0 ≤ AstroCalc.normalizeDegrees d ∧ AstroCalc.normalizeDegrees d < 360 := by
  unfold AstroCalc.normalizeDegrees
  by_cases ha : 0 ≤ d
  · obtain ⟨l, u⟩ := jsRem_nonneg_bounds d 360 (by norm_num) ha
    rw [if_neg (by linarith)]
    exact ⟨l, u⟩
  · obtain ⟨l, u⟩ := jsRem_neg_bounds d 360 (by norm_num) ha
    by_cases hr : AstroCalc.jsRem d 360 < 0
    · rw [if_pos hr]
      constructor <;> linarith
    · rw [if_neg hr]
      constructor <;> linarith [not_lt.mp hr]

/-- C5 counterexample: with target longitude 0 (the spring equinox entry
of the table) and a current longitude of 180, both inside the documented
range 0 to 360, the signed-delta wrap of the root finders returns exactly
minus 180, which is outside the claimed half-open interval from minus 180
exclusive to 180 inclusive. -/
theorem C5_wrap_boundary_cex :
    AstroCalc.wrapDelta ((0 : ℚ) - 180) = -180 ∧
    ¬ (-180 < AstroCalc.wrapDelta ((0 : ℚ) - 180)) := by
  norm_num [AstroCalc.wrapDelta, AstroCalc.wrapStep1]

/-- C5 amended: the sun-longitude function always returns a value in the
range 0 inclusive to 360 exclusive, for every sine model; and the signed
delta of two longitudes in that range, wrapped by the root-finder wrap, is
always in the closed interval from minus 180 to 180. -/
theorem C5_longitude_ranges :
    (∀ (sinDeg : ℚ → ℚ) (jd : ℚ), 0 ≤ AstroCalc.getSunLongitude sinDeg jd ∧
      AstroCalc.getSunLongitude sinDeg jd < 360) ∧
    (∀ a b : ℚ, 0 ≤ a → a < 360 → 0 ≤ b → b < 360 →
      -180 ≤ AstroCalc.wrapDelta (a - b) ∧ AstroCalc.wrapDelta (a - b) ≤ 180) := by
  constructor
  · intro sinDeg jd
    exact normalizeDegrees_range _
  · intro a b h1 h2 h3 h4
    unfold AstroCalc.wrapDelta AstroCalc.wrapStep1
    split_ifs <;> constructor <;> linarith

/-- Witness for C5 with a zero sine model at Julian day 0 and with the
longitude pair 0 and 180. -/
theorem C5_witness :
    (0 ≤ AstroCalc.getSunLongitude (fun _ => 0) 0 ∧
      AstroCalc.getSunLongitude (fun _ => 0) 0 < 360) ∧
    (-180 ≤ AstroCalc.wrapDelta ((0 : ℚ) - 180) ∧
      AstroCalc.wrapDelta ((0 : ℚ) - 180) ≤ 180) :=
  ⟨C5_longitude_ranges.1 (fun _ => 0) 0,
   C5_longitude_ranges.2 0 180 (by norm_num) (by norm_num) (by norm_num) (by norm_num)⟩

/-- C7: under the 23:00-rollover convention, any local time in hour 23
gets branch index 0 (the rat) with the hour stem drawn from the base table
at the next day stem (advanced by one modulo ten), while any local time in
hour 0 also gets branch index 0 but keeps the current day stem; and the
base table realizes the documented rule sending day stems 0/5, 1/6, 2/7,
3/8, 4/9 to bases 0, 2, 4, 6, 8. -/
theorem C7_hour_pillar_rollover (ds minute : ℤ) (h0 : 0 ≤ ds) (h1 : ds < 10) :
    (SolarTermEngine.calcHourPillar 23 minute ds true).branchIndex = 0 ∧
    (SolarTermEngine.calcHourPillar 23 minute ds true).stemIndex =
      SolarTermEngine.HOUR_STEM_START ((ds + 1) % 10) ∧
    (SolarTermEngine.calcHourPillar 23 minute ds true).dayAdjusted = true ∧
    (SolarTermEngine.calcHourPillar 0 minute ds true).branchIndex = 0 ∧
    (SolarTermEngine.calcHourPillar 0 minute ds true).stemIndex =
      SolarTermEngine.HOUR_STEM_START ds ∧
    (SolarTermEngine.calcHourPillar 0 minute ds true).dayAdjusted = false ∧
    SolarTermEngine.HOUR_STEM_START ds = 2 * (ds % 5) := by
  simp only [SolarTermEngine.calcHourPillar]
  interval_cases ds <;> exact ⟨by decide, by decide, by decide, by decide, by decide,
    by decide, by decide⟩

/-- Witness for C7 at day stem 9 (so the borrow wraps to stem 0) and
minute 30. -/
theorem C7_witness :
    (SolarTermEngine.calcHourPillar 23 30 9 true).branchIndex = 0 ∧
    (SolarTermEngine.calcHourPillar 23 30 9 true).stemIndex =
      SolarTermEngine.HOUR_STEM_START ((9 + 1) % 10) ∧
    (SolarTermEngine.calcHourPillar 23 30 9 true).dayAdjusted = true ∧
    (SolarTermEngine.calcHourPillar 0 30 9 true).branchIndex = 0 ∧
    (SolarTermEngine.calcHourPillar 0 30 9 true).stemIndex =
      SolarTermEngine.HOUR_STEM_START 9 ∧
    (SolarTermEngine.calcHourPillar 0 30 9 true).dayAdjusted = false ∧
    SolarTermEngine.HOUR_STEM_START 9 = 2 * (9 % 5) :=
  C7_hour_pillar_rollover 9 30 (by norm_num) (by norm_num)

/-- C9 counterexample: the digit-sum reduction of 1984 is 4, not 1, since
1 + 9 + 8 + 4 = 22 and 2 + 2 = 4. -/
theorem C9_digit_sum_cex :
    Kyusei.digitSumReduce 1984 = 4 ∧ ¬ Kyusei.digitSumReduce 1984 = 1 := by
  decide

/-- C9 amended: the digit-sum reduction of 1984 is 4, and the year star of
1984 follows the documented formula 11 minus the reduced value, giving 7,
already in the range 1 to 9 with no wrap needed. -/
theorem C9_year_star_1984 :
    Kyusei.digitSumReduce 1984 = 4 ∧ Kyusei.calcYearStar 1984 = 11 - 4 := by
  decide

/-- C10: getAllHiddenStems evaluates the year, day and hour branches at
the fixed elapsed-days value 15, so their active hidden stem and phase
depend only on the branch and never on the birth instant within the node
cycle; only the month entry uses the actual elapsed days. -/
theorem C10_hidden_stems_fixed_days (fp fp2 : SolarTermEngine.FourPillars)
    (hy : fp.year.branch = fp2.year.branch)
    (hd : fp.day.branch = fp2.day.branch)
    (hh : fp.hour.branch = fp2.hour.branch) :
    (SolarTermEngine.getAllHiddenStems fp).year =
      SolarTermEngine.getHiddenStems fp.year.branch 15 ∧
    (SolarTermEngine.getAllHiddenStems fp).day =
      SolarTermEngine.getHiddenStems fp.day.branch 15 ∧
    (SolarTermEngine.getAllHiddenStems fp).hour =
      SolarTermEngine.getHiddenStems fp.hour.branch 15 ∧
    (SolarTermEngine.getAllHiddenStems fp).year =
      (SolarTermEngine.getAllHiddenStems fp2).year ∧
    (SolarTermEngine.getAllHiddenStems fp).day =
      (SolarTermEngine.getAllHiddenStems fp2).day ∧
    (SolarTermEngine.getAllHiddenStems fp).hour =
      (SolarTermEngine.getAllHiddenStems fp2).hour := by
  refine ⟨rfl, rfl, rfl, ?_, ?_, ?_⟩ <;>
    simp [SolarTermEngine.getAllHiddenStems, hy, hd, hh]

/-- Witness for C10: two four-pillars values sharing all of the year, day
and hour branches but with month elapsed days 2 and 25 produce identical
year, day and hour hidden-stem results. -/
theorem C10_witness :
    (SolarTermEngine.getAllHiddenStems ⟨⟨"子"⟩, ⟨"寅", 2⟩, ⟨"午"⟩, ⟨"亥"⟩⟩).year =
      SolarTermEngine.getHiddenStems "子" 15 ∧
    (SolarTermEngine.getAllHiddenStems ⟨⟨"子"⟩, ⟨"寅", 2⟩, ⟨"午"⟩, ⟨"亥"⟩⟩).day =
      SolarTermEngine.getHiddenStems "午" 15 ∧
    (SolarTermEngine.getAllHiddenStems ⟨⟨"子"⟩, ⟨"寅", 2⟩, ⟨"午"⟩, ⟨"亥"⟩⟩).hour =
      SolarTermEngine.getHiddenStems "亥" 15 ∧
    (SolarTermEngine.getAllHiddenStems ⟨⟨"子"⟩, ⟨"寅", 2⟩, ⟨"午"⟩, ⟨"亥"⟩⟩).year =
      (SolarTermEngine.getAllHiddenStems ⟨⟨"子"⟩, ⟨"寅", 25⟩, ⟨"午"⟩, ⟨"亥"⟩⟩).year ∧
    (SolarTermEngine.getAllHiddenStems ⟨⟨"子"⟩, ⟨"寅", 2⟩, ⟨"午"⟩, ⟨"亥"⟩⟩).day =
      (SolarTermEngine.getAllHiddenStems ⟨⟨"子"⟩, ⟨"寅", 25⟩, ⟨"午"⟩, ⟨"亥"⟩⟩).day ∧
    (SolarTermEngine.getAllHiddenStems ⟨⟨"子"⟩, ⟨"寅", 2⟩, ⟨"午"⟩, ⟨"亥"⟩⟩).hour =
      (SolarTermEngine.getAllHiddenStems ⟨⟨"子"⟩, ⟨"寅", 25⟩, ⟨"午"⟩, ⟨"亥"⟩⟩).hour :=
  C10_hidden_stems_fixed_days ⟨⟨"子"⟩, ⟨"寅", 2⟩, ⟨"午"⟩, ⟨"亥"⟩⟩
    ⟨⟨"子"⟩, ⟨"寅", 25⟩, ⟨"午"⟩, ⟨"亥"⟩⟩ rfl rfl rfl

unseal Rat.add Rat.mul Rat.inv Rat.sub Rat.ofScientific in
/-- C8: the day pillar of civil local 1992-02-17 00:00 in the +9h zone
(so UTC 1992-02-16 15:00, obtained by the nine-hour shift of the local
value) is exactly the reference anchor: stem 9 (癸), branch 11 (亥),
sexagenary index 59. -/
theorem C8_day_pillar_anchor :
    SolarTermEngine.calcDayPillar
      (AstroCalc.dateToJD (subNineHours ⟨1992, 2, 17, 0, 0, 0⟩)) =
    ⟨"癸", "亥", 9, 11, 59, "癸亥"⟩ := by
  decide

/-- C6: the year pillar is the pure sexagenary map of the civil year of
the instant, decremented by one exactly when the instant precedes the
computed start-of-spring node of that year: an instant of civil year y
strictly before the lichun instant gets the pillar of year y minus 1, and
an instant of the same civil year at or after it gets the pillar of y. -/
theorem C6_year_pillar_lichun (sunLon : ℚ → ℚ) (jd1 jd2 : ℚ) (y : ℤ)
    (h1 : (AstroCalc.jdToDate jd1).year = y)
    (h2 : (AstroCalc.jdToDate jd2).year = y)
    (hb : jd1 < (SolarTermEngine.getLichunJD sunLon y).getD 0)
    (ha : ¬ jd2 < (SolarTermEngine.getLichunJD sunLon y).getD 0) :
    SolarTermEngine.calcYearPillar sunLon jd1 = SolarTermEngine.yearPillarOfYear (y - 1) ∧
    SolarTermEngine.calcYearPillar sunLon jd2 = SolarTermEngine.yearPillarOfYear y := by
  have e1 : SolarTermEngine.yearPillarYear sunLon jd1 = y - 1 := by
    unfold SolarTermEngine.yearPillarYear
    rw [h1]
    exact if_pos hb
  have e2 : SolarTermEngine.yearPillarYear sunLon jd2 = y := by
    unfold SolarTermEngine.yearPillarYear
    rw [h2]
    exact if_neg ha
  constructor
  · unfold SolarTermEngine.calcYearPillar SolarTermEngine.yearPillarOfYear
    rw [e1]
  · unfold SolarTermEngine.calcYearPillar SolarTermEngine.yearPillarOfYear
    rw [e2]

unseal Rat.add Rat.mul Rat.inv Rat.sub Rat.ofScientific in
/-- Witness for C6 in the year 2000 with a longitude model constantly at
315 degrees, which makes the computed lichun instant equal to the coarse
start estimate 2000-02-01 00:00 UTC: January 15 maps to the 1999 pillar
and March 1 maps to the 2000 pillar. -/
theorem C6_witness :
    SolarTermEngine.calcYearPillar (fun _ => 315)
      (AstroCalc.dateToJD ⟨2000, 1, 15, 0, 0, 0⟩) =
      SolarTermEngine.yearPillarOfYear (2000 - 1) ∧
    SolarTermEngine.calcYearPillar (fun _ => 315)
      (AstroCalc.dateToJD ⟨2000, 3, 1, 0, 0, 0⟩) =
      SolarTermEngine.yearPillarOfYear 2000 :=
  C6_year_pillar_lichun (fun _ => 315) (AstroCalc.dateToJD ⟨2000, 1, 15, 0, 0, 0⟩)
    (AstroCalc.dateToJD ⟨2000, 3, 1, 0, 0, 0⟩) 2000
    (by decide) (by decide) (by decide) (by decide)

/-- When the tolerance test fails at every iterate, the correction loop
never exits early and returns the plain n-step iteration value. -/
theorem newtonLoop_no_exit (sunLon : ℚ → ℚ) (target tol : ℚ) :
    ∀ (n : ℕ) (jd : ℚ),
      (∀ i : ℕ, i < n →
        ¬ |AstroCalc.wrapDelta (target - sunLon (AstroCalc.pureIter sunLon target i jd))| < tol) →
      AstroCalc.newtonLoop sunLon target tol n jd = AstroCalc.pureIter sunLon target n jd := by
  intro n
  induction n with
  | zero => intro jd h; rfl
  | succ m ih =>
      intro jd h
      have h0 := h 0 (Nat.succ_pos m)
      simp only [AstroCalc.pureIter] at h0
      simp only [AstroCalc.newtonLoop, AstroCalc.pureIter, if_neg h0]
      exact ih (jd + AstroCalc.wrapDelta (target - sunLon jd)) (fun i hi => by
        have := h (i + 1) (Nat.succ_lt_succ hi)
        simpa [AstroCalc.pureIter] using this)

set_option maxRecDepth 4000 in
unseal Rat.add Rat.mul Rat.inv Rat.sub Rat.ofScientific in
/-- C4 counterexample: with the range-respecting longitude model that is
constantly 0 and target 90, the finder exhausts its 30-step budget (the
wrapped difference is always 90, far above tolerance) and returns the
last unconverged estimate 2790 as a bare number, with no convergence flag
or failure value: non-convergence is not observable to the caller. -/
theorem C4_silent_nonconvergence_cex :
    SolarTermEngine.findSolarTermJD (fun _ => 0) 90 0 = 2790 ∧
    ¬ |AstroCalc.wrapDelta (90 - (0 : ℚ))| < 0.00001 := by
  constructor
  · decide
  · decide

/-- C4 amended: when the wrapped longitude difference never meets the
tolerance during the iteration budget, each root finder silently returns
the last (unconverged) iterate: the result equals the plain budget-length
iteration and still violates the tolerance, and the return value is a
plain number carrying no convergence indication. -/
theorem C4_nonconvergence_silent (sunLon : ℚ → ℚ) (target startJD : ℚ)
    (h30 : ∀ i : ℕ, i ≤ 30 →
      ¬ |AstroCalc.wrapDelta (target - sunLon (AstroCalc.pureIter sunLon target i
        (startJD + AstroCalc.wrapDelta (target - sunLon startJD))))| < 0.00001)
    (h20 : ∀ i : ℕ, i ≤ 20 →
      ¬ |AstroCalc.wrapDelta (target - sunLon (AstroCalc.pureIter sunLon target i
        (startJD + AstroCalc.wrapDelta (target - sunLon startJD))))| < 0.0001) :
    SolarTermEngine.findSolarTermJD sunLon target startJD =
      AstroCalc.pureIter sunLon target 30
        (startJD + AstroCalc.wrapDelta (target - sunLon startJD)) ∧
    ¬ |AstroCalc.wrapDelta (target -
        sunLon (SolarTermEngine.findSolarTermJD sunLon target startJD))| < 0.00001 ∧
    AstroCalc.findSolarTermTime sunLon target startJD =
      AstroCalc.pureIter sunLon target 20
        (startJD + AstroCalc.wrapDelta (target - sunLon startJD)) ∧
    ¬ |AstroCalc.wrapDelta (target -
        sunLon (AstroCalc.findSolarTermTime sunLon target startJD))| < 0.0001 := by
  have e30 : SolarTermEngine.findSolarTermJD sunLon target startJD =
      AstroCalc.pureIter sunLon target 30
        (startJD + AstroCalc.wrapDelta (target - sunLon startJD)) :=
    newtonLoop_no_exit sunLon target 0.00001 30 _ (fun i hi => h30 i (by omega))
  have e20 : AstroCalc.findSolarTermTime sunLon target startJD =
      AstroCalc.pureIter sunLon target 20
        (startJD + AstroCalc.wrapDelta (target - sunLon startJD)) :=
    newtonLoop_no_exit sunLon target 0.0001 20 _ (fun i hi => h20 i (by omega))
  refine ⟨e30, ?_, e20, ?_⟩
  · rw [e30]
    exact h30 30 (by omega)
  · rw [e20]
    exact h20 20 (by omega)

set_option maxRecDepth 4000 in
unseal Rat.add Rat.mul Rat.inv Rat.sub Rat.ofScientific in
/-- Witness for C4 with the constant-zero longitude model, target 90 and
start 0: neither finder ever meets its tolerance, and both return the
plain iteration value. -/
theorem C4_witness :
    SolarTermEngine.findSolarTermJD (fun _ => 0) 90 0 =
      AstroCalc.pureIter (fun _ => 0) 90 30
        (0 + AstroCalc.wrapDelta (90 - (fun _ => (0 : ℚ)) 0)) ∧
    ¬ |AstroCalc.wrapDelta (90 -
        (fun _ => (0 : ℚ)) (SolarTermEngine.findSolarTermJD (fun _ => 0) 90 0))| < 0.00001 ∧
    AstroCalc.findSolarTermTime (fun _ => 0) 90 0 =
      AstroCalc.pureIter (fun _ => 0) 90 20
        (0 + AstroCalc.wrapDelta (90 - (fun _ => (0 : ℚ)) 0)) ∧
    ¬ |AstroCalc.wrapDelta (90 -
        (fun _ => (0 : ℚ)) (AstroCalc.findSolarTermTime (fun _ => 0) 90 0))| < 0.0001 :=
  C4_nonconvergence_silent (fun _ => 0) 90 0 (by decide) (by decide)

set_option maxRecDepth 40000 in
set_option maxHeartbeats 4000000 in
unseal Rat.add Rat.mul Rat.inv Rat.sub Rat.ofScientific in
/-- C3 counterexample: under a longitude model that escapes the
documented range (constantly minus 100000), every node instant computed
by the scan lies far after the queried instant 0, so the previous-node
search finds nothing, and getPreviousJie then returns the hard-coded
default start-of-spring record (branch index 2, elapsed days 0) instead
of signalling a not-found failure. -/
theorem C3_default_fallback_cex :
    (SolarTermEngine.jieScan (fun _ => -100000) 0).1 = none ∧
    SolarTermEngine.getPreviousJie (fun _ => -100000) 0 = ⟨"立春", 0, 1, 2, 0, none⟩ := by
  constructor
  · decide
  · decide

/-- C3 amended: a term name missing from the 24-term table makes
getSolarTermJD return null (none) as claimed; but when the previous-node
scan of getPreviousJie finds no node, the function does not signal a
failure: it returns a hard-coded default start-of-spring record. -/
theorem C3_not_found_behaviour :
    (∀ (sunLon : ℚ → ℚ) (year : ℤ) (termName : String),
      SolarTermEngine.SOLAR_TERMS_FULL.find? (fun t => t.name == termName) = none →
      SolarTermEngine.getSolarTermJD sunLon year termName = none) ∧
    (∀ (sunLon : ℚ → ℚ) (jd : ℚ),
      (SolarTermEngine.jieScan sunLon jd).1 = none →
      SolarTermEngine.getPreviousJie sunLon jd = ⟨"立春", jd, 1, 2, 0, none⟩) := by
  constructor
  · intro sunLon year termName h
    simp only [SolarTermEngine.getSolarTermJD, h]
  · intro sunLon jd h
    unfold SolarTermEngine.getPreviousJie
    rw [h]

set_option maxRecDepth 40000 in
set_option maxHeartbeats 4000000 in
unseal Rat.add Rat.mul Rat.inv Rat.sub Rat.ofScientific in
/-- Witness for C3: the name X is not in the table, so its lookup yields
none; and at the scan-failure input of the counterexample the fallback
record is produced. -/
theorem C3_witness :
    SolarTermEngine.getSolarTermJD (fun _ => -100000) 2000 "X" = none ∧
    SolarTermEngine.getPreviousJie (fun _ => -100000) 0 = ⟨"立春", 0, 1, 2, 0, none⟩ :=
  ⟨C3_not_found_behaviour.1 (fun _ => -100000) 2000 "X" (by decide),
   C3_not_found_behaviour.2 (fun _ => -100000) 0 (by decide)⟩

end DivinationEngine

